import Mathlib

/-!
Verification of the Smart-City-Traffic analytics engine.

The definitions below are a shallow embedding of the engine in
src/src/ml/traffic_ml.py (the copy actually imported by main.py via
src/api/app.py; src/backend/traffic_ml.py is a legacy duplicate that is
never imported by the entry point and even lacks its datetime import).
Configuration values come from config/settings.py.

Modelling conventions:
- Python floats are modelled as exact rationals (ℚ).
- random.randint / random.uniform / random.random draws are supplied by an
  oracle (`RoadDraws`, one record per road, indexed by loop position);
  hypotheses carry the ranges the library guarantees.
- Python's `int(x)` truncation toward zero is `pyInt`; `round(x, 2)` is
  `pyRound2` (round-half-to-even on the exact rational).
- Python dicts keyed by road id are association lists built in insertion
  order; lookup takes the last binding (`dictLookup`), as later insertions
  of the same key override earlier ones.
- The sklearn KMeans call (`fit_predict` plus `cluster_centers_`) and the
  scaler/IsolationForest scoring pipeline are external library calls; they
  enter the model as oracles that either return data or raise
  (`Except Unit`), exactly where the source can observe an exception.
- networkx `shortest_path` is likewise an oracle returning the node list or
  raising NetworkXNoPath (`Option`).
-/

namespace SmartCity

/-- Python `int(x)` truncation toward zero on an exact rational. -/
def pyInt (q : ℚ) : ℤ := if 0 ≤ q then ⌊q⌋ else ⌈q⌉

/-- Round a rational to the nearest integer, ties to even
(Python's `round` semantics on the exact value). -/
def roundHalfEven (q : ℚ) : ℤ :=
  if q - ⌊q⌋ < 1 / 2 then ⌊q⌋
  else if 1 / 2 < q - ⌊q⌋ then ⌊q⌋ + 1
  else if ⌊q⌋ % 2 = 0 then ⌊q⌋ else ⌊q⌋ + 1

/-- Python `round(x, 2)`. -/
def pyRound2 (q : ℚ) : ℚ := (roundHalfEven (q * 100) : ℚ) / 100

/-- Python `f"{x:.4f}"` formatting, as the rounded rational it denotes;
used for graph node identity. -/
def round4 (q : ℚ) : ℚ := (roundHalfEven (q * 10000) : ℚ) / 10000

/-- Lookup in a Python dict modelled as an insertion-ordered association
list: the last binding of a key wins. -/
def dictLookup {α : Type} (d : List (String × α)) (k : String) : Option α :=
  ((d.filter (fun p => p.1 = k)).getLast?).map Prod.snd

/-- Road class, the `type` field of a road segment
(`arterial` / `collector` / `local`). -/
inductive RoadClass where
  | arterial : RoadClass
  | collector : RoadClass
  | localRoad : RoadClass
deriving DecidableEq

/-- Static road segment record from `_initialize_road_network`. -/
structure RoadSegment where
  id : String
  name : String
  startLat : ℚ
  startLng : ℚ
  endLat : ℚ
  endLng : ℚ
  rtype : RoadClass
deriving DecidableEq

/-- The 15 hard-coded road segments of `_initialize_road_network`,
parameterized by the configured map center. -/
def roadSegments (clat clng : ℚ) : List RoadSegment :=
  [ ⟨"R001", "Main Street", clat, clng, clat + 0.001, clng + 0.001, .arterial⟩,
    ⟨"R002", "Broadway", clat + 0.001, clng + 0.001, clat + 0.002, clng + 0.002, .arterial⟩,
    ⟨"R003", "Park Avenue", clat + 0.002, clng + 0.002, clat + 0.003, clng + 0.003, .arterial⟩,
    ⟨"R004", "5th Avenue", clat + 0.003, clng + 0.003, clat + 0.004, clng + 0.004, .arterial⟩,
    ⟨"R005", "Madison Ave", clat + 0.004, clng + 0.004, clat + 0.005, clng + 0.005, .arterial⟩,
    ⟨"R006", "42nd Street", clat, clng, clat, clng + 0.006, .collector⟩,
    ⟨"R007", "34th Street", clat + 0.001, clng + 0.001, clat + 0.001, clng + 0.005, .collector⟩,
    ⟨"R008", "23rd Street", clat + 0.002, clng + 0.002, clat + 0.002, clng + 0.006, .collector⟩,
    ⟨"R009", "14th Street", clat + 0.003, clng + 0.003, clat + 0.003, clng + 0.005, .collector⟩,
    ⟨"R010", "Houston St", clat + 0.004, clng + 0.004, clat + 0.004, clng + 0.006, .collector⟩,
    ⟨"R011", "1st Avenue", clat, clng + 0.006, clat + 0.005, clng + 0.006, .localRoad⟩,
    ⟨"R012", "2nd Avenue", clat, clng + 0.005, clat + 0.005, clng + 0.005, .localRoad⟩,
    ⟨"R013", "3rd Avenue", clat, clng + 0.004, clat + 0.005, clng + 0.004, .localRoad⟩,
    ⟨"R014", "Lexington Ave", clat, clng + 0.003, clat + 0.005, clng + 0.003, .localRoad⟩,
    ⟨"R015", "Park Ave South", clat, clng + 0.002, clat + 0.005, clng + 0.002, .localRoad⟩ ]

/-- Per-road, per-snapshot record produced by `_simulate_traffic_snapshot`.
`congestion_level` / `cluster_id` model the dict keys that only exist after
`get_current_traffic` has classified the snapshot. -/
structure RoadState where
  road_id : String
  road_name : String
  vehicle_count : ℤ
  congestion_score : ℚ
  timestamp : String
  startLat : ℚ
  startLng : ℚ
  endLat : ℚ
  endLng : ℚ
  rtype : RoadClass
  congestion_level : Option String
  cluster_id : Option ℕ
deriving DecidableEq

/-- One road's worth of random draws consumed by one iteration of the
simulation loop (`random.randint` for each of the three classes, the
uniform noise factor, the spike coin flip, and the spike multiplier). -/
structure RoadDraws where
  baseArterial : ℤ
  baseCollector : ℤ
  baseLocal : ℤ
  noise : ℚ
  spike : Bool
  spikeMult : ℚ
deriving DecidableEq

/-- Ranges that the `random` library guarantees for one road's draws. -/
def ValidDraws (d : RoadDraws) : Prop :=
  (50 ≤ d.baseArterial ∧ d.baseArterial ≤ 150) ∧
  (20 ≤ d.baseCollector ∧ d.baseCollector ≤ 80) ∧
  (5 ≤ d.baseLocal ∧ d.baseLocal ≤ 40) ∧
  (7 / 10 ≤ d.noise ∧ d.noise ≤ 13 / 10) ∧
  (3 / 2 ≤ d.spikeMult ∧ d.spikeMult ≤ 2)

/-- The `base_traffic[road['type']]` dict lookup. -/
def baseTraffic (d : RoadDraws) : RoadClass → ℤ
  | .arterial => d.baseArterial
  | .collector => d.baseCollector
  | .localRoad => d.baseLocal

/-- The `max_capacity[road['type']]` dict lookup. -/
def maxCapacity : RoadClass → ℚ
  | .arterial => 200
  | .collector => 100
  | .localRoad => 50

/-- The sequential computation of `rush_hour_multiplier`: hour-of-day base
value, then `*= 0.7` on weekends, then `*= SIMULATION_SPEED`. -/
def rushHourMultiplier (hour dayOfWeek : ℕ) (speed : ℚ) : ℚ :=
  let m1 : ℚ :=
    if (7 ≤ hour ∧ hour ≤ 9) ∨ (17 ≤ hour ∧ hour ≤ 19) then 2.5
    else if 22 ≤ hour ∨ hour ≤ 6 then 0.3
    else if 10 ≤ hour ∧ hour ≤ 16 then 1.2
    else 1
  let m2 : ℚ := if 5 ≤ dayOfWeek then m1 * 0.7 else m1
  m2 * speed

/-- One iteration of the road loop in `_simulate_traffic_snapshot`. -/
def simulateRoad (mult : ℚ) (ts : String) (road : RoadSegment) (d : RoadDraws) : RoadState :=
  let vc0 : ℤ := pyInt ((baseTraffic d road.rtype : ℚ) * mult * d.noise)
  let score0 : ℚ := min 100 ((vc0 : ℚ) / maxCapacity road.rtype * 100)
  let score1 : ℚ := if d.spike then min 100 (score0 * d.spikeMult) else score0
  let vc1 : ℤ := if d.spike then pyInt ((vc0 : ℚ) * d.spikeMult) else vc0
  { road_id := road.id
    road_name := road.name
    vehicle_count := vc1
    congestion_score := pyRound2 score1
    timestamp := ts
    startLat := road.startLat
    startLng := road.startLng
    endLat := road.endLat
    endLng := road.endLng
    rtype := road.rtype
    congestion_level := none
    cluster_id := none }

/-- The non-random inputs of one `_simulate_traffic_snapshot` call:
`datetime.now()` split into hour / weekday / iso string, the configured
SIMULATION_SPEED, and the random draws consumed per loop iteration. -/
structure SimInput where
  hour : ℕ
  dayOfWeek : ℕ
  speed : ℚ
  timestamp : String
  draws : ℕ → RoadDraws

/-- `_simulate_traffic_snapshot`: one RoadState per road segment, all
sharing the call's timestamp. -/
def simulateTrafficSnapshot (roads : List RoadSegment) (inp : SimInput) : List RoadState :=
  roads.enum.map (fun p =>
    simulateRoad (rushHourMultiplier inp.hour inp.dayOfWeek inp.speed) inp.timestamp p.2 (inp.draws p.1))

/-- Validity of every draw of a simulation input, plus nonnegativity of the
configured speed scalar. -/
def ValidSimInput (inp : SimInput) : Prop :=
  0 ≤ inp.speed ∧ ∀ i, ValidDraws (inp.draws i)

/-- Python `lst[-cap:]` on a list (the `-0` quirk included: a zero capacity
slices from index 0, i.e. keeps everything). -/
def listTailSlice {α : Type} (cap : ℕ) (h : List α) : List α :=
  if cap = 0 then h else h.drop (h.length - cap)

/-- The history-maintenance core of `update_traffic_simulation`: append,
then trim to the last `cap` snapshots when over capacity. -/
def appendBounded {α : Type} (cap : ℕ) (hist : List α) (snap : α) : List α :=
  let h := hist ++ [snap]
  if h.length > cap then listTailSlice cap h else h

/-- The mutable state of `TrafficMLSystem` that the claims concern:
`traffic_history` and the `current_traffic` dict. (The fitted scaler /
anomaly-detector objects are modelled as scoring oracles at their use
sites.) -/
structure MLState where
  traffic_history : List (List RoadState)
  current_traffic : List (String × RoadState)
deriving DecidableEq

/-- The dict comprehension `{road['road_id']: road for road in new_snapshot}`. -/
def mkCurrentTraffic (snap : List RoadState) : List (String × RoadState) :=
  snap.map (fun r => (r.road_id, r))

/-- `update_traffic_simulation`: simulate, append with capacity trim,
rebuild `current_traffic` from the new snapshot. (The periodic `_train_models`
call touches only the sklearn objects, which live outside `MLState`.) -/
def update_traffic_simulation (roads : List RoadSegment) (cap : ℕ) (inp : SimInput)
    (s : MLState) : MLState :=
  let snap := simulateTrafficSnapshot roads inp
  { traffic_history := appendBounded cap s.traffic_history snap
    current_traffic := mkCurrentTraffic snap }

/-- `_generate_initial_data`: appends 100 simulated snapshots to the
history. It does not touch `current_traffic`. (`_train_models` again only
touches the sklearn objects.) -/
def generate_initial_data (roads : List RoadSegment) (sims : ℕ → SimInput)
    (s : MLState) : MLState :=
  { s with
    traffic_history :=
      s.traffic_history ++ (List.range 100).map (fun i => simulateTrafficSnapshot roads (sims i)) }

/-- The state right after `__init__`: empty history and empty
`current_traffic` dict, then `_generate_initial_data`. -/
def initState (roads : List RoadSegment) (sims : ℕ → SimInput) : MLState :=
  generate_initial_data roads sims { traffic_history := [], current_traffic := [] }

/-- `reset_simulation`: clear both fields, then regenerate initial data. -/
def reset_simulation (roads : List RoadSegment) (sims : ℕ → SimInput)
    (_s : MLState) : MLState :=
  generate_initial_data roads sims { traffic_history := [], current_traffic := [] }

/-- Oracle for the sklearn KMeans step of `get_current_traffic` under the
default kmeans configuration: given the 1-d congestion-score samples,
`fit_predict` either raises or yields one cluster label per sample together
with the flattened `cluster_centers_`. -/
def KMeansOracle : Type := List ℚ → Except Unit (List ℕ × List ℚ)

/-- The fixed-threshold congestion label of the fallback branches. -/
def fallbackLevel (score : ℚ) : String :=
  if score < 30 then "Low" else if score < 70 then "Medium" else "High"

/-- The fallback classification loop: per road, threshold label and
`cluster_id = 0`, written into the road dicts in place. -/
def classifyFallback (snap : List RoadState) : List RoadState :=
  snap.map (fun r =>
    { r with congestion_level := some (fallbackLevel r.congestion_score), cluster_id := some 0 })

/-- `sorted(enumerate(cluster_centers), key=lambda x: x[1])` followed by
`cluster_mapping[cluster_idx] = ['Low','Medium','High'][i]`: Python's
`sorted` is stable, modelled by insertion sort on the non-strict order of
the second component. -/
def clusterMapping (centers : List ℚ) : List (ℕ × String) :=
  ((List.insertionSort (fun a b : ℕ × ℚ => a.2 ≤ b.2) centers.enum).zip
    ["Low", "Medium", "High"]).map (fun p => (p.1.1, p.2))

/-- `cluster_mapping.get(clusters[i], 'Medium')`. -/
def mappingGet (m : List (ℕ × String)) (k : ℕ) : String :=
  match m.find? (fun p => p.1 = k) with
  | some p => p.2
  | none => "Medium"

/-- The clustering-success branch of `get_current_traffic`: label every
road with its cluster's mapped level and its cluster id. -/
def classifyWithClusters (clusters : List ℕ) (centers : List ℚ)
    (snap : List RoadState) : List RoadState :=
  snap.enum.map (fun p =>
    { p.2 with
      congestion_level := some (mappingGet (clusterMapping centers) (clusters.getD p.1 0))
      cluster_id := some (clusters.getD p.1 0) })

/-- In the source, each `current_traffic` entry holds the very road dict it
was built from (`{road['road_id']: road for road in new_snapshot}` binds
each id to the last same-id dict of the latest snapshot), so in-place
writes to the snapshot's dicts are visible through the index. This is the
value-level rendering of that aliasing: given the classified latest
snapshot, rebind each index key to the last classified road carrying that
id (entries whose key no longer occurs are left as they are — such states
are unreachable, since the index is always `{}` or built from the latest
snapshot). -/
def writeThroughIndex (snap1 : List RoadState)
    (idx : List (String × RoadState)) : List (String × RoadState) :=
  idx.map (fun p =>
    match (snap1.filter (fun x => x.road_id = p.1)).getLast? with
    | some r1 => (p.1, r1)
    | none => p)

/-- `get_current_traffic` under the default kmeans configuration: classify
the latest snapshot, mutating the road dicts stored in the history — and
therefore also the same dicts held by `current_traffic`, modelled by
`writeThroughIndex` — and return it. The returned pair is (state after the
call, returned list). -/
def get_current_traffic (oracle : KMeansOracle) (s : MLState) :
    MLState × List RoadState :=
  match s.traffic_history.getLast? with
  | none => (s, [])
  | some snap =>
    let scores := snap.map (fun r => r.congestion_score)
    let snap1 :=
      if scores.length > 3 then
        match oracle scores with
        | .ok (clusters, centers) => classifyWithClusters clusters centers snap
        | .error _ => classifyFallback snap
      else classifyFallback snap
    ({ s with
        traffic_history := s.traffic_history.dropLast ++ [snap1]
        current_traffic := writeThroughIndex snap1 s.current_traffic }, snap1)

/-- Anomaly record assembled in `detect_anomalies`. -/
structure AnomalyRecord where
  road_id : String
  road_name : String
  anomaly_score : ℚ
  vehicle_count : ℤ
  congestion_score : ℚ
  timestamp : String
  severity : String
deriving DecidableEq

/-- The record appended for a road flagged anomalous. -/
def mkAnomalyRecord (r : RoadState) (score : ℚ) : AnomalyRecord :=
  { road_id := r.road_id
    road_name := r.road_name
    anomaly_score := score
    vehicle_count := r.vehicle_count
    congestion_score := r.congestion_score
    timestamp := r.timestamp
    severity := if score < -(1 / 2) then "High" else "Medium" }

/-- Oracle for the scaler/IsolationForest scoring pipeline applied to one
road's feature row: either raises, or yields the decision-function value
and whether `predict` returned -1. -/
def ScoreOracle : Type := RoadState → Except Unit (ℚ × Bool)

/-- The scoring loop of `detect_anomalies`: roads are scored in order; the
first raised error aborts the loop, and the records accumulated so far are
what the surrounding `try` block leaves in `anomalies`. -/
def scoreLoop (score : ScoreOracle) : List RoadState → List AnomalyRecord
  | [] => []
  | r :: rest =>
    match score r with
    | .error _ => []
    | .ok (a, isAnom) =>
      (if isAnom then [mkAnomalyRecord r a] else []) ++ scoreLoop score rest

/-- `detect_anomalies`: empty result for a short history, otherwise score
the latest snapshot with errors caught (not propagated). -/
def detect_anomalies (score : ScoreOracle) (s : MLState) : List AnomalyRecord :=
  if s.traffic_history.length < 10 then []
  else scoreLoop score (s.traffic_history.getLast?.getD [])

/-- Graph edge attribute record (`road_id`, `road_name`, `distance`), keyed
by its two endpoint node keys. The stored distance is the planar
approximation computed at graph build time; its numeric value is opaque to
every claim, so it is carried as a field. -/
structure GraphEdge where
  src : ℚ × ℚ
  dst : ℚ × ℚ
  road_id : String
  road_name : String
  distance : ℚ
deriving DecidableEq

/-- Node key of a coordinate pair: both components formatted at 4-decimal
precision. -/
def nodeKey (lat lng : ℚ) : ℚ × ℚ := (round4 lat, round4 lng)

/-- The edges added by `_create_road_graph`, one per road segment, with the
stored distance supplied by `dist`. -/
def graphEdges (roads : List RoadSegment) (dist : RoadSegment → ℚ) : List GraphEdge :=
  roads.map (fun road =>
    { src := nodeKey road.startLat road.startLng
      dst := nodeKey road.endLat road.endLng
      road_id := road.id
      road_name := road.name
      distance := dist road })

/-- The body of the `_update_graph_weights` loop for one edge: default
multiplier 1.0, replaced by `1 + (score/100) * weight_factor` when the
road id is truthy and present in `current_traffic`. -/
def congestionWeight (traffic : List (String × RoadState)) (weightFactor : ℚ)
    (e : GraphEdge) : ℚ :=
  let baseWeight := e.distance / 1000
  let congestionMultiplier : ℚ :=
    if e.road_id ≠ "" then
      match dictLookup traffic e.road_id with
      | some r => 1 + (r.congestion_score / 100) * weightFactor
      | none => 1
    else 1
  baseWeight * congestionMultiplier

/-- `_update_graph_weights`: recompute `congestion_weight` for every edge. -/
def update_graph_weights (traffic : List (String × RoadState)) (weightFactor : ℚ)
    (edges : List GraphEdge) : List (GraphEdge × ℚ) :=
  edges.map (fun e => (e, congestionWeight traffic weightFactor e))

/-- The fixed symbolic-location table of `_find_nearest_node`,
parameterized by the configured map center. -/
def locationMapping (clat clng : ℚ) : List (String × (ℚ × ℚ)) :=
  [ ("A", nodeKey clat clng),
    ("B", nodeKey (clat + 0.005) (clng + 0.005)),
    ("C", nodeKey (clat + 0.002) (clng + 0.002)),
    ("D", nodeKey (clat + 0.004) (clng + 0.006)),
    ("Main Street", nodeKey clat clng),
    ("Broadway", nodeKey (clat + 0.001) (clng + 0.001)),
    ("Park Avenue", nodeKey (clat + 0.002) (clng + 0.002)),
    ("5th Avenue", nodeKey (clat + 0.003) (clng + 0.003)),
    ("Madison Ave", nodeKey (clat + 0.004) (clng + 0.004)) ]

/-- `_find_nearest_node`: table lookup, else the first graph node as a
fallback, else None on an empty graph. -/
def find_nearest_node (clat clng : ℚ) (nodes : List (ℚ × ℚ)) (loc : String) :
    Option (ℚ × ℚ) :=
  match (locationMapping clat clng).find? (fun p => p.1 = loc) with
  | some p => some p.2
  | none => nodes.head?

/-- One entry of `route_details`. -/
structure RouteSegment where
  fromNode : ℚ × ℚ
  toNode : ℚ × ℚ
  road_name : String
  road_id : String
  distance : ℚ
  congestion_score : ℚ
  estimated_time : ℚ
deriving DecidableEq

/-- The success payload of `get_optimized_route`. -/
structure RouteResult where
  path_coordinates : List (ℚ × ℚ)
  route_details : List RouteSegment
  total_distance : ℚ
  estimated_time : ℚ
  start_node : ℚ × ℚ
  end_node : ℚ × ℚ
deriving DecidableEq

/-- The four possible outcomes of `get_optimized_route`: success, the
unresolved-endpoint error payload, the NetworkXNoPath payload, and the
outer catch-all error payload. -/
inductive RouteOutcome where
  | ok : RouteResult → RouteOutcome
  | resolutionError : RouteOutcome
  | noPath : (ℚ × ℚ) → (ℚ × ℚ) → RouteOutcome
  | calcError : RouteOutcome
deriving DecidableEq

/-- Oracle for `nx.shortest_path(graph, start, end, weight='congestion_weight')`
on the freshly weighted edge list: the node path, or `none` for
NetworkXNoPath. -/
def ShortestPathOracle : Type :=
  List (GraphEdge × ℚ) → (ℚ × ℚ) → (ℚ × ℚ) → Option (List (ℚ × ℚ))

/-- Undirected adjacency lookup `graph[a][b]` on the weighted edge list. -/
def findEdge (wedges : List (GraphEdge × ℚ)) (a b : ℚ × ℚ) : Option (GraphEdge × ℚ) :=
  wedges.find? (fun e => (e.1.src = a ∧ e.1.dst = b) ∨ (e.1.src = b ∧ e.1.dst = a))

/-- Build the `route_details` list along consecutive path nodes; a missing
edge corresponds to a KeyError swallowed by the outer `except`. -/
def buildSegments (wedges : List (GraphEdge × ℚ)) (traffic : List (String × RoadState)) :
    List ((ℚ × ℚ) × (ℚ × ℚ)) → Option (List RouteSegment)
  | [] => some []
  | (a, b) :: rest =>
    match findEdge wedges a b with
    | none => none
    | some (e, w) =>
      (buildSegments wedges traffic rest).map (fun segs =>
        { fromNode := a
          toNode := b
          road_name := e.road_name
          road_id := e.road_id
          distance := e.distance
          congestion_score :=
            match dictLookup traffic e.road_id with
            | some r => r.congestion_score
            | none => 0
          estimated_time := w * 60 } :: segs)

/-- `get_optimized_route`: resolve endpoints, refresh weights, run the
shortest-path oracle, and walk the path emitting segments and totals. -/
def get_optimized_route (sp : ShortestPathOracle) (clat clng : ℚ)
    (nodes : List (ℚ × ℚ)) (edges : List GraphEdge)
    (traffic : List (String × RoadState)) (weightFactor : ℚ)
    (startLoc endLoc : String) : RouteOutcome :=
  match find_nearest_node clat clng nodes startLoc,
        find_nearest_node clat clng nodes endLoc with
  | some s, some e =>
    let wedges := update_graph_weights traffic weightFactor edges
    match sp wedges s e with
    | none => .noPath s e
    | some path =>
      match buildSegments wedges traffic (path.zip path.tail) with
      | none => .calcError
      | some segs =>
        .ok { path_coordinates := path
              route_details := segs
              total_distance := pyRound2 ((segs.map (fun g => g.distance)).sum)
              estimated_time := pyRound2 ((segs.map (fun g => g.estimated_time)).sum / 60)
              start_node := s
              end_node := e }
  | _, _ => .resolutionError

/-! Helper lemmas. -/

lemma pyInt_nonneg {q : ℚ} (h : 0 ≤ q) : 0 ≤ pyInt q := by
  simp only [pyInt, if_pos h]
  exact Int.floor_nonneg.mpr h

lemma roundHalfEven_nonneg {q : ℚ} (h : 0 ≤ q) : 0 ≤ roundHalfEven q := by
  have hf : (0 : ℤ) ≤ ⌊q⌋ := Int.floor_nonneg.mpr h
  unfold roundHalfEven
  split
  · exact hf
  · split
    · omega
    · split <;> omega

lemma roundHalfEven_le {q : ℚ} {n : ℤ} (h : q ≤ (n : ℚ)) : roundHalfEven q ≤ n := by
  have hf : ⌊q⌋ ≤ n := by
    have h2 := Int.floor_le_floor h
    simpa using h2
  have hstep : ¬ (q - (⌊q⌋ : ℚ) < 1 / 2) → ⌊q⌋ + 1 ≤ n := by
    intro hh
    push_neg at hh
    by_contra hc
    have hfn : ⌊q⌋ = n := by omega
    have hq : q ≤ (⌊q⌋ : ℚ) := by rw [hfn]; exact h
    linarith
  unfold roundHalfEven
  split
  · exact hf
  · split
    · exact hstep (by assumption)
    · split
      · exact hf
      · exact hstep (by assumption)

lemma pyRound2_nonneg {q : ℚ} (h : 0 ≤ q) : 0 ≤ pyRound2 q := by
  have h1 : (0 : ℤ) ≤ roundHalfEven (q * 100) := roundHalfEven_nonneg (by positivity)
  unfold pyRound2
  have h2 : (0 : ℚ) ≤ (roundHalfEven (q * 100) : ℚ) := by exact_mod_cast h1
  positivity

lemma pyRound2_le_100 {q : ℚ} (h : q ≤ 100) : pyRound2 q ≤ 100 := by
  have h1 : roundHalfEven (q * 100) ≤ (10000 : ℤ) :=
    roundHalfEven_le (by push_cast; linarith)
  have h2 : (roundHalfEven (q * 100) : ℚ) ≤ 10000 := by exact_mod_cast h1
  unfold pyRound2
  rw [div_le_iff₀ (by norm_num : (0 : ℚ) < 100)]
  linarith

lemma pyRound2_zero : pyRound2 0 = 0 := by
  norm_num [pyRound2, roundHalfEven]

lemma rushHourMultiplier_nonneg {hour dow : ℕ} {speed : ℚ} (h : 0 ≤ speed) :
    0 ≤ rushHourMultiplier hour dow speed := by
  simp only [rushHourMultiplier]
  split_ifs <;> linarith

lemma simulateRoad_bounds (mult : ℚ) (hm : 0 ≤ mult) (ts : String) (road : RoadSegment)
    (d : RoadDraws) (hd : ValidDraws d) :
    0 ≤ (simulateRoad mult ts road d).congestion_score ∧
    (simulateRoad mult ts road d).congestion_score ≤ 100 ∧
    0 ≤ (simulateRoad mult ts road d).vehicle_count := by
  obtain ⟨ha, hc, hl, hn, hs⟩ := hd
  have hbase : (0 : ℚ) ≤ (baseTraffic d road.rtype : ℚ) := by
    have hz : (0 : ℤ) ≤ baseTraffic d road.rtype := by
      cases road.rtype <;> simp only [baseTraffic] <;> omega
    exact_mod_cast hz
  have hnoise : (0 : ℚ) ≤ d.noise := by linarith [hn.1]
  have hspm : (0 : ℚ) ≤ d.spikeMult := by linarith [hs.1]
  have hcap : (0 : ℚ) < maxCapacity road.rtype := by
    cases road.rtype <;> norm_num [maxCapacity]
  have hvc0 : 0 ≤ pyInt ((baseTraffic d road.rtype : ℚ) * mult * d.noise) :=
    pyInt_nonneg (by positivity)
  have hvc0q : (0 : ℚ) ≤ (pyInt ((baseTraffic d road.rtype : ℚ) * mult * d.noise) : ℚ) := by
    exact_mod_cast hvc0
  have hscore0 : (0 : ℚ) ≤
      min 100 ((pyInt ((baseTraffic d road.rtype : ℚ) * mult * d.noise) : ℚ) /
        maxCapacity road.rtype * 100) := by
    apply le_min (by norm_num)
    positivity
  simp only [simulateRoad]
  refine ⟨?_, ?_, ?_⟩
  · apply pyRound2_nonneg
    split
    · exact le_min (by norm_num) (by positivity)
    · exact hscore0
  · apply pyRound2_le_100
    split
    · exact min_le_left _ _
    · exact min_le_left _ _
  · split
    · exact pyInt_nonneg (by positivity)
    · exact hvc0

lemma simulateTrafficSnapshot_bounds (roads : List RoadSegment) (inp : SimInput)
    (hv : ValidSimInput inp) :
    ∀ r ∈ simulateTrafficSnapshot roads inp,
      0 ≤ r.congestion_score ∧ r.congestion_score ≤ 100 ∧ 0 ≤ r.vehicle_count := by
  obtain ⟨hspeed, hdraws⟩ := hv
  intro r hr
  simp only [simulateTrafficSnapshot, List.mem_map] at hr
  obtain ⟨p, _, rfl⟩ := hr
  exact simulateRoad_bounds _ (rushHourMultiplier_nonneg hspeed) _ _ _ (hdraws p.1)

lemma mem_appendBounded {α : Type} {cap : ℕ} {hist : List α} {snap x : α}
    (hx : x ∈ appendBounded cap hist snap) : x ∈ hist ∨ x = snap := by
  have hx2 : x ∈ hist ++ [snap] := by
    simp only [appendBounded, listTailSlice] at hx
    split at hx
    · split at hx
      · exact hx
      · exact List.mem_of_mem_drop hx
    · exact hx
  simpa using hx2

lemma foldl_update_bounds (roads : List RoadSegment) (cap : ℕ) (inps : List SimInput) :
    ∀ s : MLState,
      (∀ snap ∈ s.traffic_history, ∀ r ∈ snap,
        0 ≤ r.congestion_score ∧ r.congestion_score ≤ 100 ∧ 0 ≤ r.vehicle_count) →
      (∀ inp ∈ inps, ValidSimInput inp) →
      ∀ snap ∈ (inps.foldl (fun s2 inp => update_traffic_simulation roads cap inp s2)
          s).traffic_history,
        ∀ r ∈ snap,
          0 ≤ r.congestion_score ∧ r.congestion_score ≤ 100 ∧ 0 ≤ r.vehicle_count := by
  induction inps with
  | nil => intro s hs _; exact hs
  | cons inp rest ih =>
    intro s hs hvalid
    simp only [List.foldl_cons]
    apply ih
    · intro snap hsnap r hr
      rcases mem_appendBounded hsnap with h | rfl
      · exact hs snap h r hr
      · exact simulateTrafficSnapshot_bounds roads inp (hvalid inp (by simp)) r hr
    · intro inp2 h2
      exact hvalid inp2 (by simp [h2])

/-- C1: every RoadState produced by the traffic simulator, in initial data
generation and in every subsequent update, has a congestion score in
[0, 100] and a nonnegative vehicle count (given the ranges the random
library guarantees and a nonnegative configured simulation speed). -/
theorem C1_roadState_bounds (roads : List RoadSegment) (sims : ℕ → SimInput)
    (inps : List SimInput) (cap : ℕ)
    (hsims : ∀ i, ValidSimInput (sims i))
    (hinps : ∀ inp ∈ inps, ValidSimInput inp) :
    ∀ snap ∈ (inps.foldl (fun s inp => update_traffic_simulation roads cap inp s)
        (initState roads sims)).traffic_history,
      ∀ r ∈ snap,
        0 ≤ r.congestion_score ∧ r.congestion_score ≤ 100 ∧ 0 ≤ r.vehicle_count := by
  apply foldl_update_bounds roads cap inps (initState roads sims) _ hinps
  intro snap hsnap r hr
  simp only [initState, generate_initial_data, List.nil_append, List.mem_map] at hsnap
  obtain ⟨i, _, rfl⟩ := hsnap
  exact simulateTrafficSnapshot_bounds roads (sims i) (hsims i) r hr

/-- Fixture: one road's draws, inside all the guaranteed ranges. -/
def draws0 : RoadDraws :=
  { baseArterial := 100, baseCollector := 50, baseLocal := 20
    noise := 1, spike := false, spikeMult := 3 / 2 }

/-- Fixture: one simulation input (a Tuesday 08:00 tick at speed 1). -/
def inp0 : SimInput :=
  { hour := 8, dayOfWeek := 1, speed := 1, timestamp := "t0", draws := fun _ => draws0 }

/-- Fixture: a constant stream of simulation inputs. -/
def sims0 : ℕ → SimInput := fun _ => inp0

/-- Fixture: the road network at the default map center. -/
def roads0 : List RoadSegment := roadSegments 40.7128 (-74.0060)

theorem C1_roadState_bounds_witness :
    (∀ i, ValidSimInput (sims0 i)) ∧
    (∀ inp ∈ ([inp0] : List SimInput), ValidSimInput inp) ∧
    (∀ snap ∈ (([inp0] : List SimInput).foldl
        (fun s inp => update_traffic_simulation roads0 200 inp s)
        (initState roads0 sims0)).traffic_history,
      ∀ r ∈ snap,
        0 ≤ r.congestion_score ∧ r.congestion_score ≤ 100 ∧ 0 ≤ r.vehicle_count) := by
  have hv : ValidSimInput inp0 := by
    constructor
    · norm_num [inp0]
    · intro i
      show ValidDraws draws0
      unfold ValidDraws draws0
      norm_num
  refine ⟨fun i => hv, ?_, ?_⟩
  · intro inp h
    simp only [List.mem_singleton] at h
    rw [h]; exact hv
  · exact C1_roadState_bounds roads0 sims0 [inp0] 200 (fun i => hv)
      (fun inp h => by simp only [List.mem_singleton] at h; rw [h]; exact hv)

lemma appendBounded_length_le {α : Type} (cap : ℕ) (hcap : 0 < cap)
    (hist : List α) (snap : α) : (appendBounded cap hist snap).length ≤ cap := by
  simp only [appendBounded, listTailSlice]
  split
  · split
    · omega
    · simp only [List.length_drop]
      omega
  · omega

lemma appendBounded_of_le {α : Type} {cap : ℕ} {hist : List α} {snap : α}
    (h : hist.length + 1 ≤ cap) : appendBounded cap hist snap = hist ++ [snap] := by
  simp only [appendBounded]
  rw [if_neg]
  simp only [List.length_append, List.length_singleton]
  omega

lemma foldl_appendBounded_short {α : Type} (cap : ℕ) (xs : List α) :
    ∀ acc : List α, acc.length + xs.length ≤ cap →
      xs.foldl (appendBounded cap) acc = acc ++ xs := by
  induction xs with
  | nil => intro acc _; simp
  | cons x rest ih =>
    intro acc h
    simp only [List.length_cons] at h
    simp only [List.foldl_cons]
    rw [appendBounded_of_le (by omega)]
    rw [ih (acc ++ [x]) (by simp; omega)]
    simp

lemma foldl_appendBounded_overflow {α : Type} (cap : ℕ) (first : α) (rest : List α)
    (hlen : rest.length = cap) (hne : rest ≠ []) :
    (first :: rest).foldl (appendBounded cap) [] = rest := by
  obtain ⟨ys, z, rfl⟩ := (List.eq_nil_or_concat' rest).resolve_left hne
  have hys : ys.length + 1 = cap := by simpa using hlen
  simp only [List.foldl_cons]
  rw [show appendBounded cap ([] : List α) first = [] ++ [first] from
    appendBounded_of_le (by simp; omega)]
  rw [List.foldl_append]
  rw [foldl_appendBounded_short cap ys ([] ++ [first]) (by simp; omega)]
  simp only [List.nil_append, List.foldl_cons, List.foldl_nil]
  simp only [appendBounded, listTailSlice]
  rw [if_pos (by simp; omega)]
  rw [if_neg (by omega)]
  have hlen2 : (([first] ++ ys) ++ [z]).length - cap = 1 := by simp; omega
  rw [hlen2]
  simp

/-- C2: after every `update_traffic_simulation` call the history length is
at most the configured capacity; the history maintenance is `appendBounded`;
and after N+1 appends with capacity N (starting empty) the first-appended
snapshot is gone and the newest is present (FIFO eviction). -/
theorem C2_history_capacity_fifo (roads : List RoadSegment) (cap : ℕ) (inp : SimInput)
    (s : MLState) (first : List RoadState) (rest : List (List RoadState))
    (hcap : 0 < cap) (hlen : rest.length = cap) (hne : rest ≠ [])
    (hfirst : first ∉ rest) :
    (update_traffic_simulation roads cap inp s).traffic_history.length ≤ cap ∧
    (update_traffic_simulation roads cap inp s).traffic_history
      = appendBounded cap s.traffic_history (simulateTrafficSnapshot roads inp) ∧
    first ∉ (first :: rest).foldl (appendBounded cap) [] ∧
    (∀ newest, rest.getLast? = some newest →
      newest ∈ (first :: rest).foldl (appendBounded cap) []) := by
  refine ⟨appendBounded_length_le cap hcap _ _, rfl, ?_, ?_⟩
  · rw [foldl_appendBounded_overflow cap first rest hlen hne]
    exact hfirst
  · intro newest hnewest
    rw [foldl_appendBounded_overflow cap first rest hlen hne]
    rw [List.getLast?_eq_getLast rest hne] at hnewest
    rw [← Option.some_inj.mp hnewest] at *
    exact List.getLast_mem hne

/-- Fixture: a one-road snapshot used by several witnesses. -/
def roadA : RoadState :=
  { road_id := "R001", road_name := "Main Street", vehicle_count := 10
    congestion_score := 20, timestamp := "t0"
    startLat := 0, startLng := 0, endLat := 0, endLng := 0
    rtype := .arterial, congestion_level := none, cluster_id := none }

/-- Fixture: a second road state with a different id. -/
def roadB : RoadState :=
  { road_id := "R002", road_name := "Broadway", vehicle_count := 90
    congestion_score := 80, timestamp := "t0"
    startLat := 0, startLng := 0, endLat := 0, endLng := 0
    rtype := .arterial, congestion_level := none, cluster_id := none }

theorem C2_history_capacity_fifo_witness :
    (0 < 2 ∧ ([[roadA], [roadB]] : List (List RoadState)).length = 2 ∧
      ([[roadA], [roadB]] : List (List RoadState)) ≠ [] ∧
      ([] : List RoadState) ∉ ([[roadA], [roadB]] : List (List RoadState))) ∧
    ((update_traffic_simulation roads0 2 inp0
        { traffic_history := [], current_traffic := [] }).traffic_history.length ≤ 2 ∧
      (update_traffic_simulation roads0 2 inp0
        { traffic_history := [], current_traffic := [] }).traffic_history
        = appendBounded 2 ([] : List (List RoadState))
            (simulateTrafficSnapshot roads0 inp0) ∧
      ([] : List RoadState) ∉
        (([] : List RoadState) :: [[roadA], [roadB]]).foldl (appendBounded 2) [] ∧
      (∀ newest, ([[roadA], [roadB]] : List (List RoadState)).getLast? = some newest →
        newest ∈ (([] : List RoadState) :: [[roadA], [roadB]]).foldl (appendBounded 2) [])) :=
  ⟨⟨by norm_num, by decide, by decide, by decide⟩,
    C2_history_capacity_fifo roads0 2 inp0 { traffic_history := [], current_traffic := [] }
      [] [[roadA], [roadB]] (by norm_num) (by decide) (by decide) (by decide)⟩

/-- C3: when the latest snapshot has 3 or fewer congestion samples, or the
clustering step raises, every road gets the fixed-threshold label
(`< 30` Low, `< 70` Medium, else High) and cluster id 0; in the
small-sample case the result does not depend on the clustering step at all
(clustering is never attempted). -/
theorem C3_classifier_fallback (oracle : KMeansOracle) (s : MLState)
    (snap : List RoadState)
    (hlast : s.traffic_history.getLast? = some snap)
    (hcase : snap.length ≤ 3 ∨
      oracle (snap.map (fun r => r.congestion_score)) = .error ()) :
    (get_current_traffic oracle s).2 =
      snap.map (fun r =>
        { r with
          congestion_level := some (if r.congestion_score < 30 then "Low"
            else if r.congestion_score < 70 then "Medium" else "High")
          cluster_id := some 0 }) ∧
    (snap.length ≤ 3 → ∀ oracle2 : KMeansOracle,
      get_current_traffic oracle2 s = get_current_traffic oracle s) := by
  have hfall : classifyFallback snap =
      snap.map (fun r =>
        { r with
          congestion_level := some (if r.congestion_score < 30 then "Low"
            else if r.congestion_score < 70 then "Medium" else "High")
          cluster_id := some 0 }) := by
    simp only [classifyFallback, fallbackLevel]
  constructor
  · simp only [get_current_traffic, hlast]
    rcases hcase with h | h
    · rw [if_neg (by simp only [List.length_map]; omega)]
      exact hfall
    · by_cases h3 : (snap.map (fun r => r.congestion_score)).length > 3
      · rw [if_pos h3, h]
        exact hfall
      · rw [if_neg h3]
        exact hfall
  · intro h3 oracle2
    simp only [get_current_traffic, hlast]
    rw [if_neg (by simp only [List.length_map]; omega),
      if_neg (by simp only [List.length_map]; omega)]

/-- Fixture: a state whose latest (and only) snapshot has one road. -/
def stateOneRoad : MLState := { traffic_history := [[roadA]], current_traffic := [] }

/-- Fixture: a clustering oracle that always raises. -/
def oracleErr : KMeansOracle := fun _ => .error ()

theorem C3_classifier_fallback_witness :
    (stateOneRoad.traffic_history.getLast? = some [roadA] ∧
      ([roadA] : List RoadState).length ≤ 3) ∧
    ((get_current_traffic oracleErr stateOneRoad).2 =
      ([roadA] : List RoadState).map (fun r =>
        { r with
          congestion_level := some (if r.congestion_score < 30 then "Low"
            else if r.congestion_score < 70 then "Medium" else "High")
          cluster_id := some 0 }) ∧
    (([roadA] : List RoadState).length ≤ 3 → ∀ oracle2 : KMeansOracle,
      get_current_traffic oracle2 stateOneRoad =
        get_current_traffic oracleErr stateOneRoad)) :=
  ⟨⟨rfl, by norm_num⟩,
    C3_classifier_fallback oracleErr stateOneRoad [roadA] rfl (Or.inl (by norm_num))⟩

/-- Projection of a RoadState onto the fields that exist before
classification. -/
def RoadState.core (r : RoadState) :
    String × String × ℤ × ℚ × String × (ℚ × ℚ × ℚ × ℚ) × RoadClass :=
  (r.road_id, r.road_name, r.vehicle_count, r.congestion_score, r.timestamp,
    (r.startLat, r.startLng, r.endLat, r.endLng), r.rtype)

/-- C9 counterexample: classifying the latest snapshot mutates the snapshot
stored in the traffic history (it gains `congestion_level`/`cluster_id`),
so the history is not left unchanged. -/
theorem C9_snapshot_immutable_counterexample :
    (get_current_traffic oracleErr stateOneRoad).1.traffic_history ≠
      stateOneRoad.traffic_history := by
  decide

lemma core_classifyWithClusters (clusters : List ℕ) (centers : List ℚ)
    (snap : List RoadState) :
    (classifyWithClusters clusters centers snap).map RoadState.core
      = snap.map RoadState.core := by
  simp only [classifyWithClusters, List.map_map]
  have h1 : (RoadState.core ∘ fun p : ℕ × RoadState =>
      ({ p.2 with
          congestion_level := some (mappingGet (clusterMapping centers) (clusters.getD p.1 0))
          cluster_id := some (clusters.getD p.1 0) } : RoadState))
      = RoadState.core ∘ Prod.snd := by
    funext p; rfl
  rw [h1, ← List.map_map, List.enum_map_snd]

lemma core_classifyFallback (snap : List RoadState) :
    (classifyFallback snap).map RoadState.core = snap.map RoadState.core := by
  simp only [classifyFallback, List.map_map]
  rfl

lemma dictLookup_mkCurrentTraffic_eq (l : List RoadState) (k : String) :
    dictLookup (mkCurrentTraffic l) k
      = (l.filter (fun r => r.road_id = k)).getLast? := by
  unfold dictLookup mkCurrentTraffic
  rw [List.filter_map, List.getLast?_map, Option.map_map]
  have h1 : (Prod.snd ∘ fun r : RoadState => (r.road_id, r)) = id := rfl
  rw [h1, Option.map_id]
  rfl

lemma writeThroughIndex_map_fst (snap1 : List RoadState)
    (idx : List (String × RoadState)) :
    (writeThroughIndex snap1 idx).map Prod.fst = idx.map Prod.fst := by
  unfold writeThroughIndex
  rw [List.map_map]
  refine List.map_congr_left (fun p _ => ?_)
  simp only [Function.comp_apply]
  rcases h : (snap1.filter (fun x => x.road_id = p.1)).getLast? with _ | r1 <;> rw [h]

lemma writeThroughIndex_mk (snap snap1 : List RoadState) :
    writeThroughIndex snap1 (mkCurrentTraffic snap)
      = snap.map (fun r =>
          match (snap1.filter (fun x => x.road_id = r.road_id)).getLast? with
          | some r1 => (r.road_id, r1)
          | none => (r.road_id, r)) := by
  unfold writeThroughIndex mkCurrentTraffic
  rw [List.map_map]
  refine List.map_congr_left (fun r _ => ?_)
  rfl

lemma dictLookup_map_keyed (f : RoadState → String × RoadState)
    (hf : ∀ r, (f r).1 = r.road_id) (l : List RoadState) (k : String) :
    dictLookup (l.map f) k
      = ((l.filter (fun r => r.road_id = k)).getLast?).map (fun r => (f r).2) := by
  unfold dictLookup
  rw [List.filter_map, List.getLast?_map, Option.map_map]
  have hfil : l.filter ((fun p : String × RoadState => decide (p.1 = k)) ∘ f)
      = l.filter (fun r => decide (r.road_id = k)) :=
    List.filter_congr (fun a _ => by simp [Function.comp_apply, hf a])
  rw [hfil]
  rfl

lemma rid_of_core {l1 l2 : List RoadState}
    (h : l1.map RoadState.core = l2.map RoadState.core) :
    l1.map (fun r => r.road_id) = l2.map (fun r => r.road_id) := by
  have h2 := congrArg
    (List.map (fun t : String × String × ℤ × ℚ × String × (ℚ × ℚ × ℚ × ℚ) × RoadClass => t.1)) h
  rw [List.map_map, List.map_map] at h2
  exact h2

lemma dictLookup_writeThrough_eq (snap snap1 : List RoadState)
    (hids : snap1.map (fun r => r.road_id) = snap.map (fun r => r.road_id))
    (k : String) :
    dictLookup (writeThroughIndex snap1 (mkCurrentTraffic snap)) k
      = dictLookup (mkCurrentTraffic snap1) k := by
  rw [writeThroughIndex_mk,
    dictLookup_map_keyed _ (fun r => by
      rcases h : (snap1.filter (fun x => x.road_id = r.road_id)).getLast? with _ | r1 <;>
        rw [h]),
    dictLookup_mkCurrentTraffic_eq]
  rcases hcase : (snap.filter (fun r => r.road_id = k)).getLast? with _ | r
  · rw [List.getLast?_eq_none_iff] at hcase
    have h2 : snap1.filter (fun r => r.road_id = k) = [] := by
      rw [List.filter_eq_nil_iff] at hcase ⊢
      intro a ha hak
      have hk1 : k ∈ snap1.map (fun r => r.road_id) := by
        simp only [List.mem_map]
        exact ⟨a, ha, by simpa using hak⟩
      rw [hids] at hk1
      simp only [List.mem_map] at hk1
      obtain ⟨b, hb, hbk⟩ := hk1
      exact hcase b hb (by simpa using hbk)
    rw [hcase, h2]
    rfl
  · have hr : r ∈ snap.filter (fun x => x.road_id = k) :=
      List.mem_of_mem_getLast? (Option.mem_def.mpr hcase)
    have hrk : r.road_id = k := by simpa using (List.mem_filter.mp hr).2
    have hk1 : k ∈ snap1.map (fun r2 => r2.road_id) := by
      rw [hids]
      simp only [List.mem_map]
      exact ⟨r, List.mem_of_mem_filter hr, hrk⟩
    have hne : snap1.filter (fun x => x.road_id = k) ≠ [] := by
      intro hnil
      rw [List.filter_eq_nil_iff] at hnil
      simp only [List.mem_map] at hk1
      obtain ⟨a, ha, hak⟩ := hk1
      exact hnil a ha (by simpa using hak)
    rw [hcase]
    simp only [Option.map_some']
    rw [hrk]
    rcases h1 : (snap1.filter (fun x => x.road_id = k)).getLast? with _ | r1
    · rw [List.getLast?_eq_none_iff] at h1
      exact absurd h1 hne
    · rw [h1]

/-- C9 amended: `get_current_traffic` rewrites the latest stored snapshot
in place with its classified version. All snapshots before the last are
unchanged and within the last snapshot every pre-classification field of
every road is unchanged; only `congestion_level` and `cluster_id` are
written. Because the current-traffic index holds those same road dicts,
the writes are visible through it: the index keys are unchanged, and when
the index was the comprehension over the latest snapshot (its shape in
every reachable nonempty state), its lookups afterwards give exactly the
classified road states. -/
theorem C9_classification_frame (oracle : KMeansOracle) (s : MLState)
    (snap : List RoadState)
    (hlast : s.traffic_history.getLast? = some snap) :
    ∃ snap1,
      (get_current_traffic oracle s).1.traffic_history
        = s.traffic_history.dropLast ++ [snap1] ∧
      (get_current_traffic oracle s).2 = snap1 ∧
      snap1.map RoadState.core = snap.map RoadState.core ∧
      (get_current_traffic oracle s).1.current_traffic
        = writeThroughIndex snap1 s.current_traffic ∧
      ((get_current_traffic oracle s).1.current_traffic).map Prod.fst
        = s.current_traffic.map Prod.fst ∧
      (s.current_traffic = mkCurrentTraffic snap →
        ∀ k, dictLookup (get_current_traffic oracle s).1.current_traffic k
          = dictLookup (mkCurrentTraffic snap1) k) := by
  simp only [get_current_traffic, hlast]
  split
  · split
    · refine ⟨_, rfl, rfl, core_classifyWithClusters _ _ _, rfl,
        writeThroughIndex_map_fst _ _, ?_⟩
      intro hidx k
      rw [hidx]
      exact dictLookup_writeThrough_eq snap _
        (rid_of_core (core_classifyWithClusters _ _ _)) k
    · refine ⟨_, rfl, rfl, core_classifyFallback _, rfl,
        writeThroughIndex_map_fst _ _, ?_⟩
      intro hidx k
      rw [hidx]
      exact dictLookup_writeThrough_eq snap _
        (rid_of_core (core_classifyFallback _)) k
  · refine ⟨_, rfl, rfl, core_classifyFallback _, rfl,
      writeThroughIndex_map_fst _ _, ?_⟩
    intro hidx k
    rw [hidx]
    exact dictLookup_writeThrough_eq snap _
      (rid_of_core (core_classifyFallback _)) k

/-- Fixture: a state in the reachable post-update shape — the index is the
comprehension over the latest (one-road) snapshot. -/
def stateIndexed : MLState :=
  { traffic_history := [[roadA]], current_traffic := [("R001", roadA)] }

theorem C9_classification_frame_witness :
    (stateIndexed.traffic_history.getLast? = some [roadA] ∧
      stateIndexed.current_traffic = mkCurrentTraffic [roadA]) ∧
    (∃ snap1,
      (get_current_traffic oracleErr stateIndexed).1.traffic_history
        = stateIndexed.traffic_history.dropLast ++ [snap1] ∧
      (get_current_traffic oracleErr stateIndexed).2 = snap1 ∧
      snap1.map RoadState.core = ([roadA] : List RoadState).map RoadState.core ∧
      (get_current_traffic oracleErr stateIndexed).1.current_traffic
        = writeThroughIndex snap1 stateIndexed.current_traffic ∧
      ((get_current_traffic oracleErr stateIndexed).1.current_traffic).map Prod.fst
        = stateIndexed.current_traffic.map Prod.fst ∧
      (stateIndexed.current_traffic = mkCurrentTraffic [roadA] →
        ∀ k, dictLookup (get_current_traffic oracleErr stateIndexed).1.current_traffic k
          = dictLookup (mkCurrentTraffic snap1) k)) :=
  ⟨⟨rfl, rfl⟩, C9_classification_frame oracleErr stateIndexed [roadA] rfl⟩

lemma scoreLoop_append_error (score : ScoreOracle) (bad : RoadState)
    (post : List RoadState) :
    ∀ pre : List RoadState,
      (∀ r ∈ pre, ∃ v, score r = .ok v) →
      score bad = .error () →
      scoreLoop score (pre ++ bad :: post) =
        pre.filterMap (fun r =>
          match score r with
          | .ok (a, true) => some (mkAnomalyRecord r a)
          | _ => none) := by
  intro pre
  induction pre with
  | nil =>
    intro _ herr
    simp only [List.nil_append, scoreLoop, herr, List.filterMap_nil]
  | cons r pre2 ih =>
    intro hok herr
    obtain ⟨⟨a, isA⟩, hv⟩ := hok r (by simp)
    simp only [List.cons_append, scoreLoop, hv, List.append_eq]
    rw [ih (fun r2 h2 => hok r2 (by simp [h2])) herr]
    cases isA <;> simp [List.filterMap_cons, hv]

/-- C6 amended: with fewer than 10 snapshots `detect_anomalies` returns the
empty list; a scoring error is caught (never propagated) and the call
returns the anomaly records accumulated from the roads scored before the
error — which is empty only when no anomalous road precedes the error. -/
theorem C6_anomaly_error_policy (score : ScoreOracle) (s : MLState) :
    (s.traffic_history.length < 10 → detect_anomalies score s = []) ∧
    (∀ snap pre bad post,
      s.traffic_history.getLast? = some snap →
      10 ≤ s.traffic_history.length →
      snap = pre ++ bad :: post →
      (∀ r ∈ pre, ∃ v, score r = .ok v) →
      score bad = .error () →
      detect_anomalies score s =
        pre.filterMap (fun r =>
          match score r with
          | .ok (a, true) => some (mkAnomalyRecord r a)
          | _ => none)) := by
  constructor
  · intro h
    simp only [detect_anomalies, if_pos h]
  · intro snap pre bad post hlast hlen hsnap hok herr
    simp only [detect_anomalies, hlast, Option.getD_some]
    rw [if_neg (by omega), hsnap]
    exact scoreLoop_append_error score bad post pre hok herr

/-- Fixture: a scoring oracle that flags road R001 anomalous and raises on
every other road. -/
def scoreAB : ScoreOracle := fun r =>
  if r.road_id = "R001" then .ok (-1, true) else .error ()

/-- Fixture: a state whose history holds 10 identical two-road snapshots. -/
def stateTen : MLState :=
  { traffic_history := List.replicate 10 [roadA, roadB], current_traffic := [] }

/-- C6 counterexample: scoring the latest snapshot raises (on road R002),
yet the call returns a nonempty anomaly list (the record for R001 flagged
before the error), not "no anomalies this cycle". -/
theorem C6_anomaly_error_policy_counterexample :
    roadB ∈ stateTen.traffic_history.getLast?.getD [] ∧
    scoreAB roadB = .error () ∧
    detect_anomalies scoreAB stateTen = [mkAnomalyRecord roadA (-1)] ∧
    detect_anomalies scoreAB stateTen ≠ [] := by
  have h3 : detect_anomalies scoreAB stateTen = [mkAnomalyRecord roadA (-1)] := rfl
  exact ⟨by decide, rfl, h3, by rw [h3]; simp⟩

theorem C6_anomaly_error_policy_witness :
    (stateOneRoad.traffic_history.length < 10 ∧
      detect_anomalies scoreAB stateOneRoad = []) ∧
    (stateTen.traffic_history.getLast? = some [roadA, roadB] ∧
      10 ≤ stateTen.traffic_history.length ∧
      scoreAB roadB = .error () ∧
      detect_anomalies scoreAB stateTen =
        ([roadA] : List RoadState).filterMap (fun r =>
          match scoreAB r with
          | .ok (a, true) => some (mkAnomalyRecord r a)
          | _ => none)) :=
  ⟨⟨by decide, (C6_anomaly_error_policy scoreAB stateOneRoad).1 (by decide)⟩,
    ⟨by decide, by decide, rfl,
      (C6_anomaly_error_policy scoreAB stateTen).2 [roadA, roadB] [roadA] roadB []
        (by decide) (by decide) rfl
        (fun r hr => ⟨((-1 : ℚ), true), by
          have h : r = roadA := by simpa using hr
          rw [h]; rfl⟩)
        rfl⟩⟩

lemma getLast?_appendBounded {α : Type} (cap : ℕ) (hist : List α) (snap : α) :
    (appendBounded cap hist snap).getLast? = some snap := by
  simp only [appendBounded, listTailSlice]
  split
  · split
    · exact List.getLast?_concat _
    · rename_i h1 h2
      rw [List.drop_append_of_le_length (by simp at h1 ⊢; omega)]
      exact List.getLast?_concat _
  · exact List.getLast?_concat _

lemma getLast?_eq_some_of_all_eq {α : Type} {l : List α} {a : α}
    (hmem : a ∈ l) (hall : ∀ x ∈ l, x = a) : l.getLast? = some a := by
  have hne := List.ne_nil_of_mem hmem
  rw [List.getLast?_eq_getLast _ hne]
  exact congrArg some (hall _ (List.getLast_mem hne))

lemma dictLookup_mkCurrentTraffic (snap : List RoadState) (r : RoadState)
    (hr : r ∈ snap) (huniq : ∀ r2 ∈ snap, r2.road_id = r.road_id → r2 = r) :
    dictLookup (mkCurrentTraffic snap) r.road_id = some r := by
  unfold dictLookup mkCurrentTraffic
  rw [List.filter_map, List.getLast?_map, Option.map_map]
  rw [getLast?_eq_some_of_all_eq (a := r)
    (List.mem_filter.mpr ⟨hr, by simp⟩)
    (fun x hx => huniq x (List.mem_filter.mp hx).1
      (by simpa using (List.mem_filter.mp hx).2))]
  simp

/-- C10 amended: immediately after initialization and after
`reset_simulation` the current-traffic index is empty (those paths never
build it); after every `update_traffic_simulation` the index is rebuilt
wholesale from the newest snapshot in the history, mapping each (unique)
road id to that road's RoadState from that snapshot. -/
theorem C10_current_traffic_index (roads : List RoadSegment) (sims : ℕ → SimInput)
    (s : MLState) (cap : ℕ) (inp : SimInput) :
    (initState roads sims).current_traffic = [] ∧
    (reset_simulation roads sims s).current_traffic = [] ∧
    (update_traffic_simulation roads cap inp s).traffic_history.getLast?
      = some (simulateTrafficSnapshot roads inp) ∧
    (update_traffic_simulation roads cap inp s).current_traffic
      = mkCurrentTraffic (simulateTrafficSnapshot roads inp) ∧
    (∀ r ∈ simulateTrafficSnapshot roads inp,
      (∀ r2 ∈ simulateTrafficSnapshot roads inp, r2.road_id = r.road_id → r2 = r) →
      dictLookup (update_traffic_simulation roads cap inp s).current_traffic r.road_id
        = some r) :=
  ⟨rfl, rfl, getLast?_appendBounded cap s.traffic_history _, rfl,
    fun r hr huniq => dictLookup_mkCurrentTraffic _ r hr huniq⟩

lemma simulate_road_ids (roads : List RoadSegment) (inp : SimInput) :
    (simulateTrafficSnapshot roads inp).map (fun r => r.road_id)
      = roads.map (fun road => road.id) := by
  simp only [simulateTrafficSnapshot, List.map_map]
  have h : ((fun r : RoadState => r.road_id) ∘ fun p : ℕ × RoadSegment =>
      simulateRoad (rushHourMultiplier inp.hour inp.dayOfWeek inp.speed)
        inp.timestamp p.2 (inp.draws p.1))
      = (fun road : RoadSegment => road.id) ∘ Prod.snd := by
    funext p; rfl
  rw [h, ← List.map_map, List.enum_map_snd]

/-- C10 counterexample: immediately after initialization the history ends
in a full 15-road snapshot (road R001 included), yet the current-traffic
index is still empty, so it does not map road ids to the latest snapshot's
road states. -/
theorem C10_current_traffic_index_counterexample :
    (initState roads0 sims0).traffic_history.getLast?
      = some (simulateTrafficSnapshot roads0 (sims0 99)) ∧
    "R001" ∈ (simulateTrafficSnapshot roads0 (sims0 99)).map (fun r => r.road_id) ∧
    dictLookup (initState roads0 sims0).current_traffic "R001" = none := by
  refine ⟨?_, ?_, rfl⟩
  · simp only [initState, generate_initial_data, List.nil_append]
    rw [show (100 : ℕ) = 99 + 1 from rfl, List.range_succ, List.map_append]
    simp
  · rw [simulate_road_ids]
    decide

/-- Fixture: a one-segment road network with literal coordinates. -/
def roadsW : List RoadSegment := [⟨"R001", "Main Street", 0, 0, 1, 1, .arterial⟩]

theorem C10_current_traffic_index_witness :
    ((simulateTrafficSnapshot roadsW inp0).headD roadA
        ∈ simulateTrafficSnapshot roadsW inp0) ∧
    dictLookup (update_traffic_simulation roadsW 200 inp0 stateOneRoad).current_traffic
        ((simulateTrafficSnapshot roadsW inp0).headD roadA).road_id
      = some ((simulateTrafficSnapshot roadsW inp0).headD roadA) := by
  have hsing : simulateTrafficSnapshot roadsW inp0 =
      [simulateRoad (rushHourMultiplier inp0.hour inp0.dayOfWeek inp0.speed)
        inp0.timestamp ⟨"R001", "Main Street", 0, 0, 1, 1, .arterial⟩ (inp0.draws 0)] := rfl
  have hmem : (simulateTrafficSnapshot roadsW inp0).headD roadA
      ∈ simulateTrafficSnapshot roadsW inp0 := by
    rw [hsing]; simp
  refine ⟨hmem,
    (C10_current_traffic_index roadsW sims0 stateOneRoad 200 inp0).2.2.2.2 _ hmem ?_⟩
  intro r2 h2 _
  rw [hsing] at h2 hmem ⊢
  simp only [List.mem_singleton] at h2
  rw [h2]
  simp

/-- C4: `_update_graph_weights` sets every edge's congestion weight to
`base_distance_km * (1 + (congestion_score/100) * weight_factor)` with the
score looked up by the edge's road id in the current-traffic index, and to
`base_distance_km * 1` when the id is absent; every edge of the built graph
has a nonempty road id, so the truthiness guard never changes this. -/
theorem C4_refresh_weights (traffic : List (String × RoadState)) (wf : ℚ)
    (edges : List GraphEdge) (e : GraphEdge) (w : ℚ)
    (hmem : (e, w) ∈ update_graph_weights traffic wf edges)
    (hid : e.road_id ≠ "") :
    (∀ r, dictLookup traffic e.road_id = some r →
      w = e.distance / 1000 * (1 + r.congestion_score / 100 * wf)) ∧
    (dictLookup traffic e.road_id = none → w = e.distance / 1000 * 1) ∧
    (∀ clat clng : ℚ, ∀ dist : RoadSegment → ℚ,
      ∀ ge ∈ graphEdges (roadSegments clat clng) dist, ge.road_id ≠ "") := by
  simp only [update_graph_weights, List.mem_map, Prod.mk.injEq] at hmem
  obtain ⟨e2, hmem2, he, hw⟩ := hmem
  subst he
  refine ⟨?_, ?_, ?_⟩
  · intro r hr
    rw [← hw]
    simp [congestionWeight, hid, hr]
  · intro hnone
    rw [← hw]
    simp [congestionWeight, hid, hnone]
  · intro clat clng dist ge hge
    simp only [graphEdges, List.mem_map] at hge
    obtain ⟨road, hroad, rfl⟩ := hge
    fin_cases hroad <;> simp

/-- Fixture: a current-traffic index holding roadA under its id. -/
def trafficA : List (String × RoadState) := [("R001", roadA)]

/-- Fixture: a weighted graph edge for road R001, 1000 m long. -/
def edgeA : GraphEdge :=
  { src := (0, 0), dst := (1, 1), road_id := "R001"
    road_name := "Main Street", distance := 1000 }

theorem C4_refresh_weights_witness :
    ((edgeA, congestionWeight trafficA 2 edgeA)
        ∈ update_graph_weights trafficA 2 [edgeA] ∧ edgeA.road_id ≠ "") ∧
    ((∀ r, dictLookup trafficA edgeA.road_id = some r →
      congestionWeight trafficA 2 edgeA
        = edgeA.distance / 1000 * (1 + r.congestion_score / 100 * 2)) ∧
    (dictLookup trafficA edgeA.road_id = none →
      congestionWeight trafficA 2 edgeA = edgeA.distance / 1000 * 1) ∧
    (∀ clat clng : ℚ, ∀ dist : RoadSegment → ℚ,
      ∀ ge ∈ graphEdges (roadSegments clat clng) dist, ge.road_id ≠ "")) :=
  ⟨⟨by simp [update_graph_weights], by decide⟩,
    C4_refresh_weights trafficA 2 [edgeA] edgeA _
      (by simp [update_graph_weights]) (by decide)⟩

lemma rushHourMultiplier_eq (hour dow : ℕ) (speed : ℚ) :
    rushHourMultiplier hour dow speed =
      (if (7 ≤ hour ∧ hour ≤ 9) ∨ (17 ≤ hour ∧ hour ≤ 19) then (2.5 : ℚ)
       else if 22 ≤ hour ∨ hour ≤ 6 then 0.3
       else if 10 ≤ hour ∧ hour ≤ 16 then 1.2 else 1) *
      (if 5 ≤ dow then (0.7 : ℚ) else 1) * speed := by
  simp only [rushHourMultiplier]
  split_ifs <;> ring

/-- C5: in every simulated snapshot, a road's vehicle count is the
class-dependent base draw times the hour-of-day multiplier (2.5 in rush
hours, 0.3 at night, 1.2 midday, 1.0 otherwise), times 0.7 on weekends,
times the configured simulation-speed scalar, and only then the noise
factor — truncated to int; with a spike the whole thing is further scaled
by the spike multiplier. -/
theorem C5_simulation_multipliers (roads : List RoadSegment) (inp : SimInput)
    (i : ℕ) (road : RoadSegment) (hroad : roads[i]? = some road) :
    ∃ r, (simulateTrafficSnapshot roads inp)[i]? = some r ∧
      ((inp.draws i).spike = false →
        r.vehicle_count = pyInt ((baseTraffic (inp.draws i) road.rtype : ℚ) *
          (if (7 ≤ inp.hour ∧ inp.hour ≤ 9) ∨ (17 ≤ inp.hour ∧ inp.hour ≤ 19) then 2.5
           else if 22 ≤ inp.hour ∨ inp.hour ≤ 6 then 0.3
           else if 10 ≤ inp.hour ∧ inp.hour ≤ 16 then 1.2 else 1) *
          (if 5 ≤ inp.dayOfWeek then 0.7 else 1) * inp.speed * (inp.draws i).noise)) ∧
      ((inp.draws i).spike = true →
        r.vehicle_count = pyInt ((pyInt ((baseTraffic (inp.draws i) road.rtype : ℚ) *
          (if (7 ≤ inp.hour ∧ inp.hour ≤ 9) ∨ (17 ≤ inp.hour ∧ inp.hour ≤ 19) then 2.5
           else if 22 ≤ inp.hour ∨ inp.hour ≤ 6 then 0.3
           else if 10 ≤ inp.hour ∧ inp.hour ≤ 16 then 1.2 else 1) *
          (if 5 ≤ inp.dayOfWeek then 0.7 else 1) * inp.speed * (inp.draws i).noise) : ℚ) *
          (inp.draws i).spikeMult)) := by
  have harg : (baseTraffic (inp.draws i) road.rtype : ℚ) *
      rushHourMultiplier inp.hour inp.dayOfWeek inp.speed * (inp.draws i).noise =
      (baseTraffic (inp.draws i) road.rtype : ℚ) *
      (if (7 ≤ inp.hour ∧ inp.hour ≤ 9) ∨ (17 ≤ inp.hour ∧ inp.hour ≤ 19) then 2.5
       else if 22 ≤ inp.hour ∨ inp.hour ≤ 6 then 0.3
       else if 10 ≤ inp.hour ∧ inp.hour ≤ 16 then 1.2 else 1) *
      (if 5 ≤ inp.dayOfWeek then 0.7 else 1) * inp.speed * (inp.draws i).noise := by
    rw [rushHourMultiplier_eq]
    ring
  refine ⟨simulateRoad (rushHourMultiplier inp.hour inp.dayOfWeek inp.speed)
    inp.timestamp road (inp.draws i), ?_, ?_, ?_⟩
  · simp only [simulateTrafficSnapshot, List.getElem?_map, List.getElem?_enum, hroad]
    rfl
  · intro hspike
    simp only [simulateRoad, hspike, Bool.false_eq_true, if_neg, ite_false]
    rw [harg]
  · intro hspike
    simp only [simulateRoad, hspike, ite_true]
    rw [harg]

theorem C5_simulation_multipliers_witness :
    (roadsW[0]? = some ⟨"R001", "Main Street", 0, 0, 1, 1, .arterial⟩) ∧
    (∃ r, (simulateTrafficSnapshot roadsW inp0)[0]? = some r ∧
      ((inp0.draws 0).spike = false →
        r.vehicle_count = pyInt ((baseTraffic (inp0.draws 0) RoadClass.arterial : ℚ) *
          (if (7 ≤ inp0.hour ∧ inp0.hour ≤ 9) ∨ (17 ≤ inp0.hour ∧ inp0.hour ≤ 19) then 2.5
           else if 22 ≤ inp0.hour ∨ inp0.hour ≤ 6 then 0.3
           else if 10 ≤ inp0.hour ∧ inp0.hour ≤ 16 then 1.2 else 1) *
          (if 5 ≤ inp0.dayOfWeek then 0.7 else 1) * inp0.speed * (inp0.draws 0).noise)) ∧
      ((inp0.draws 0).spike = true →
        r.vehicle_count = pyInt ((pyInt ((baseTraffic (inp0.draws 0) RoadClass.arterial : ℚ) *
          (if (7 ≤ inp0.hour ∧ inp0.hour ≤ 9) ∨ (17 ≤ inp0.hour ∧ inp0.hour ≤ 19) then 2.5
           else if 22 ≤ inp0.hour ∨ inp0.hour ≤ 6 then 0.3
           else if 10 ≤ inp0.hour ∧ inp0.hour ≤ 16 then 1.2 else 1) *
          (if 5 ≤ inp0.dayOfWeek then 0.7 else 1) * inp0.speed * (inp0.draws 0).noise) : ℚ) *
          (inp0.draws 0).spikeMult))) :=
  ⟨rfl, C5_simulation_multipliers roadsW inp0 0 ⟨"R001", "Main Street", 0, 0, 1, 1, .arterial⟩ rfl⟩

lemma enum_triple (c0 c1 c2 : ℚ) :
    ([c0, c1, c2] : List ℚ).enum = [(0, c0), (1, c1), (2, c2)] := rfl

/-- C7: with real clustering the three centroids are ranked ascending and
Low/Medium/High assigned in rank order, so the centroid of the Low cluster
is at most that of Medium which is at most that of High; the sort is
stable, so equal centroids keep original cluster index order. -/
theorem C7_centroid_ranking (c0 c1 c2 : ℚ) (iL iM iH : ℕ)
    (hL : (iL, "Low") ∈ clusterMapping [c0, c1, c2])
    (hM : (iM, "Medium") ∈ clusterMapping [c0, c1, c2])
    (hH : (iH, "High") ∈ clusterMapping [c0, c1, c2]) :
    [c0, c1, c2].getD iL 0 ≤ [c0, c1, c2].getD iM 0 ∧
    [c0, c1, c2].getD iM 0 ≤ [c0, c1, c2].getD iH 0 ∧
    ([c0, c1, c2].getD iL 0 = [c0, c1, c2].getD iM 0 → iL < iM) ∧
    ([c0, c1, c2].getD iM 0 = [c0, c1, c2].getD iH 0 → iM < iH) := by
  unfold clusterMapping at hL hM hH
  rw [enum_triple] at hL hM hH
  simp only [List.insertionSort, List.orderedInsert] at hL hM hH
  by_cases h12 : c1 ≤ c2 <;> by_cases h01 : c0 ≤ c1 <;> by_cases h02 : c0 ≤ c2 <;>
    simp [h12, h01, h02] at hL hM hH <;>
      subst hL <;> subst hM <;> subst hH <;>
        refine ⟨?_, ?_, ?_, ?_⟩ <;>
          simp only [List.getD_cons_zero, List.getD_cons_succ] <;>
            first
              | linarith
              | (intro h; omega)
              | (intro h; linarith)

theorem C7_centroid_ranking_witness :
    ((0, "Low") ∈ clusterMapping [10, 50, 90] ∧
      (1, "Medium") ∈ clusterMapping [10, 50, 90] ∧
      (2, "High") ∈ clusterMapping [10, 50, 90]) ∧
    (([10, 50, 90] : List ℚ).getD 0 0 ≤ ([10, 50, 90] : List ℚ).getD 1 0 ∧
      ([10, 50, 90] : List ℚ).getD 1 0 ≤ ([10, 50, 90] : List ℚ).getD 2 0 ∧
      (([10, 50, 90] : List ℚ).getD 0 0 = ([10, 50, 90] : List ℚ).getD 1 0 → 0 < 1) ∧
      (([10, 50, 90] : List ℚ).getD 1 0 = ([10, 50, 90] : List ℚ).getD 2 0 → 1 < 2)) :=
  ⟨⟨by decide, by decide, by decide⟩,
    C7_centroid_ranking 10 50 90 0 1 2 (by decide) (by decide) (by decide)⟩

lemma round4_zero : round4 0 = 0 := by
  norm_num [round4, roundHalfEven]

/-- C8: when a location identifier resolves to a node `n` and the
shortest-path oracle returns the single-node path for `n` to itself (as
networkx does), the route result is a success with zero traversed
segments, total distance 0 and estimated time 0. -/
theorem C8_self_route (sp : ShortestPathOracle) (clat clng : ℚ)
    (nodes : List (ℚ × ℚ)) (edges : List GraphEdge)
    (traffic : List (String × RoadState)) (wf : ℚ) (X : String) (n : ℚ × ℚ)
    (hres : find_nearest_node clat clng nodes X = some n)
    (hsp : sp (update_graph_weights traffic wf edges) n n = some [n]) :
    get_optimized_route sp clat clng nodes edges traffic wf X X =
      .ok { path_coordinates := [n], route_details := [], total_distance := 0,
            estimated_time := 0, start_node := n, end_node := n } := by
  simp only [get_optimized_route, hres, hsp, List.tail_cons, List.zip_nil_right,
    buildSegments, List.map_nil, List.sum_nil]
  norm_num [pyRound2_zero]

/-- Fixture: a shortest-path oracle honouring the networkx contract on a
source-equals-target query. -/
def sp0 : ShortestPathOracle := fun _ a b => if a = b then some [a] else none

theorem C8_self_route_witness :
    (find_nearest_node 0 0 [] "A" = some ((0 : ℚ), (0 : ℚ)) ∧
      sp0 (update_graph_weights [] 2 []) (0, 0) (0, 0) = some [((0 : ℚ), (0 : ℚ))]) ∧
    get_optimized_route sp0 0 0 [] [] [] 2 "A" "A" =
      .ok { path_coordinates := [((0 : ℚ), (0 : ℚ))], route_details := [],
            total_distance := 0, estimated_time := 0,
            start_node := (0, 0), end_node := (0, 0) } := by
  have hres : find_nearest_node 0 0 [] "A" = some ((0 : ℚ), (0 : ℚ)) := by
    simp [find_nearest_node, locationMapping, nodeKey, round4_zero]
  have hsp : sp0 (update_graph_weights [] 2 []) (0, 0) (0, 0)
      = some [((0 : ℚ), (0 : ℚ))] := by
    simp [sp0]
  exact ⟨⟨hres, hsp⟩, C8_self_route sp0 0 0 [] [] [] 2 "A" (0, 0) hres hsp⟩

end SmartCity
